import Mathlib

/-!
A shallow embedding of the Reply Collection Engine of the sidecar service
(`src/app.py`): the Peer Resolver `resolve_bot_entity` and the Reply
Collector `send_and_collect_replies`, together with the response shaping of
the `bot_send` and `search_phone_via_bot` endpoints.

Modelling conventions:
* The messaging transport is an oracle `Nat → GetEntityResult` giving the
  outcome of the n-th `get_entity` call of the run; connection repair
  (`client.connect`) is modelled as always succeeding, and each connect,
  resolution call and backoff sleep is recorded in an effect log.
* The entity cache (a Python dict keyed by strings) is an association list
  consulted first-match; every write in the source inserts a key that was
  checked absent just before, so prepending models the dict update.
* Times and delays are rationals; the integer second parameters of the
  Python API stay integers and are coerced where the source mixes them
  with clock values.
* Exceptions raised by the Python code become `Except` errors; the
  `HTTPException`s raised by the resolver are the structured
  `ResolveError` (400 → `notFound`, 429 → `floodWait`, 502 → `unavailable`).
* The process-level `BOT_USER_ID` override read from settings is a
  parameter `botUserId : Option Nat`; Python truthiness makes both `None`
  and `0` skip the override branch.
-/

namespace TelethonSidecar

/-! ### Peer resolver: data model -/

/-- Outcome of one `client.get_entity` transport call, as classified by the
`except` arms of `resolve_bot_entity`. -/
inductive GetEntityResult where
  | ok (ent : Nat)
  | usernameInvalid
  | usernameNotOccupied
  | floodWait (seconds : Nat)
  | transient (cause : String)
  | unknownErr (cause : String)
deriving DecidableEq

/-- Classified failure raised by the resolver: `notFound` is the
HTTP 400 ("not found or invalid"), `floodWait` the HTTP 429 carrying the
mandated seconds, `unavailable` the HTTP 502 carrying the last underlying
cause (if any). -/
inductive ResolveError where
  | notFound (bot : String)
  | floodWait (seconds : Nat)
  | unavailable (lastCause : Option String)
deriving DecidableEq

/-- Argument of a resolution call: numeric id or username string. -/
inductive EntityArg where
  | byId (n : Nat)
  | byName (s : String)
deriving DecidableEq

/-- Observable side effects of a resolver run, in order. -/
inductive REffect where
  | connectCall
  | getEntity (arg : EntityArg)
  | sleep (d : ℚ)
deriving DecidableEq

/-- Mutable state threaded through a resolver run: the process-wide entity
cache, the transport connection flag, and how many resolution calls have
been made so far (the oracle index). -/
structure RState where
  cache : List (String × Nat)
  connected : Bool
  calls : Nat
deriving DecidableEq

/-- Python whitespace for `str.strip()`. -/
def isPyWs (c : Char) : Bool :=
  c = ' ' || c = '\t' || c = '\n' || c = '\r' || c = Char.ofNat 11 || c = Char.ofNat 12

/-- Python `str.strip()`: drop leading and trailing whitespace. -/
def pyStrip (s : String) : String :=
  String.mk (((s.data.dropWhile isPyWs).reverse.dropWhile isPyWs).reverse)

/-- `bot.strip().lstrip("@")` of the source: strip whitespace, then drop
every leading `@`. -/
def cleanOf (bot : String) : String :=
  String.mk ((pyStrip bot).data.dropWhile (fun c => c = '@'))

/-- Python `str.lower()`, as a character-wise map (identifiers are ASCII). -/
def lowerStr (s : String) : String := String.mk (s.data.map Char.toLower)

/-- `clean.lower()`: the cache key of a username-form identifier. -/
def normalizeKey (bot : String) : String := lowerStr (cleanOf bot)

instance : DecidableEq (Except ResolveError Nat) := fun a b =>
  match a, b with
  | .ok x, .ok y =>
    decidable_of_iff (x = y) ⟨fun h => by rw [h], fun h => by injection h⟩
  | .ok _, .error _ => isFalse fun h => by injection h
  | .error _, .ok _ => isFalse fun h => by injection h
  | .error x, .error y =>
    decidable_of_iff (x = y) ⟨fun h => by rw [h], fun h => by injection h⟩

/-- `ensure_connected`: connect (logging the call) only when currently
disconnected. -/
def ensureConnected (st : RState) : RState × List REffect :=
  if st.connected then (st, []) else ({ st with connected := true }, [REffect.connectCall])

/-- The retry loop of `resolve_bot_entity` (`for attempt in range(1, retries+1)`).
The fuel counts remaining attempts; `delay` is the current backoff; `lastExc`
the last transient/unknown cause. Each iteration ensures the connection,
issues one resolution call and dispatches on its classified outcome exactly
as the source's `except` arms do: success caches under `cacheKey` and
returns; NotFound/Invalid and FloodWait raise immediately; a transient error
reconnects, sleeps the current delay, doubles it and retries; an unknown
error breaks out to the 502. Exhausted fuel is the 502 `unavailable`
carrying `lastExc`. -/
def resolveLoop (oracle : Nat → GetEntityResult) (bot clean cacheKey : String) :
    Nat → ℚ → Option String → RState → Except ResolveError Nat × RState × List REffect
  | 0, _, lastExc, st => (.error (.unavailable lastExc), st, [])
  | n + 1, delay, _, st =>
    let p := ensureConnected st
    let r := oracle p.1.calls
    let st2 : RState := { p.1 with calls := p.1.calls + 1 }
    let eCall := p.2 ++ [REffect.getEntity (EntityArg.byName clean)]
    match r with
    | .ok ent => (.ok ent, { st2 with cache := (cacheKey, ent) :: st2.cache }, eCall)
    | .usernameInvalid => (.error (.notFound bot), st2, eCall)
    | .usernameNotOccupied => (.error (.notFound bot), st2, eCall)
    | .floodWait s => (.error (.floodWait s), st2, eCall)
    | .transient c =>
      let st3 : RState := { st2 with connected := true }
      let q := resolveLoop oracle bot clean cacheKey n (delay * 2) (some c) st3
      (q.1, q.2.1, eCall ++ [REffect.connectCall, REffect.sleep delay] ++ q.2.2)
    | .unknownErr c => (.error (.unavailable (some c)), st2, eCall)

/-- The username half of `resolve_bot_entity`: normalize, consult the cache
(a hit returns with no effect), on a miss run the retry loop. -/
def usernameResolve (oracle : Nat → GetEntityResult) (bot : String) (retries : Nat)
    (backoff : ℚ) (st : RState) : Except ResolveError Nat × RState × List REffect :=
  let clean := cleanOf bot
  let cacheKey := lowerStr clean
  match st.cache.lookup cacheKey with
  | some ent => (.ok ent, st, [])
  | none => resolveLoop oracle bot clean cacheKey retries backoff none st

/-- `resolve_bot_entity`: when a (truthy) `BOT_USER_ID` override is
configured, first try the `id:<id>` cache key, then a single resolution
call for that id — any failure of that call falls through to username
resolution (the source catches every exception there); otherwise resolve by
username with cache, retry and backoff. -/
def resolve_bot_entity (oracle : Nat → GetEntityResult) (botUserId : Option Nat)
    (bot : String) (retries : Nat) (backoff : ℚ) (st : RState) :
    Except ResolveError Nat × RState × List REffect :=
  match botUserId with
  | none => usernameResolve oracle bot retries backoff st
  | some uid =>
    if uid = 0 then usernameResolve oracle bot retries backoff st
    else
      let key := "id:" ++ toString uid
      match st.cache.lookup key with
      | some ent => (.ok ent, st, [])
      | none =>
        let p := ensureConnected st
        let r := oracle p.1.calls
        let st2 : RState := { p.1 with calls := p.1.calls + 1 }
        let eCall := p.2 ++ [REffect.getEntity (EntityArg.byId uid)]
        match r with
        | .ok ent => (.ok ent, { st2 with cache := (key, ent) :: st2.cache }, eCall)
        | _ =>
          let q := usernameResolve oracle bot retries backoff st2
          (q.1, q.2.1, eCall ++ q.2.2)

/-- Number of resolution (`get_entity`) calls recorded in an effect log. -/
def resolutionCalls (log : List REffect) : Nat :=
  (log.filter (fun e => match e with | .getEntity _ => true | _ => false)).length

/-- The backoff delays slept during a run, in order. -/
def sleeps (log : List REffect) : List ℚ :=
  log.filterMap (fun e => match e with | .sleep d => some d | _ => none)

/-- Whether a resolver outcome is a success. -/
def rOk : Except ResolveError Nat → Bool
  | .ok _ => true
  | .error _ => false

/-! ### Reply collector: data model

The collector `send_and_collect_replies` is modelled as a deterministic
function of: the outcome of the send (`sendErr`, `none` when
`client.send_message` returns, `some e` when it raises `e`), the three
limit parameters, the inbound event schedule (absolute arrival times, in
queue order), and the clock value at which the deadline is computed (the
moment right after the send).  Besides the value the Python function
returns (or the exception it propagates), the model emits the ordered
trace of handler registration, send, queue waits and handler removal, and
ghost data (termination reason, wait count, finish time) that the source
only logs. -/

/-- One inbound event: arrival time at this process, message text, and the
optional iso date string extracted by the handler. -/
structure Ev where
  arrival : ℚ
  text : String
  date : Option String
deriving DecidableEq

/-- One collected `{"text": ..., "date": ...}` dictionary. -/
structure Msg where
  text : String
  date : Option String
deriving DecidableEq

/-- The message dictionary built from an event at line 280-282. -/
def evMsg (e : Ev) : Msg := ⟨e.text, e.date⟩

/-- Which condition terminated the collection loop (ghost data: the source
distinguishes these only in log lines, never in its return value). -/
inductive TermReason where
  | capReached
  | overallExpired
  | idleExpired
deriving DecidableEq

/-- Observable actions of one collector invocation, in program order. -/
inductive CAction where
  | register
  | send
  | waitIter
  | deregister
deriving DecidableEq

/-- Result of the collection loop: the accumulated messages, the ghost
termination reason, the number of `asyncio.wait_for` waits performed, and
the clock value when the loop stopped. -/
structure CollectOut where
  messages : List Msg
  reason : TermReason
  waits : Nat
  finishedAt : ℚ
deriving DecidableEq

/-- The collection loop (lines 273-286).  While fewer than `cap` messages
are collected: stop when the deadline has passed; otherwise wait on the
queue for `min(idleTimeout, remainingOverall)`.  The head event is
received iff it arrives within that window (an event already queued is
returned immediately); receiving appends its message and continues with
the clock advanced to the arrival instant; a wait that times out stops the
loop. -/
def collectLoop (idle cap : Int) (deadline : ℚ) :
    List Ev → ℚ → List Msg → CollectOut
  | [], now, acc =>
    if (acc.length : Int) < cap then
      if deadline - now ≤ 0 then ⟨acc, .overallExpired, 0, now⟩
      else ⟨acc, .idleExpired, 1, now + min (idle : ℚ) (deadline - now)⟩
    else ⟨acc, .capReached, 0, now⟩
  | e :: rest, now, acc =>
    if (acc.length : Int) < cap then
      if deadline - now ≤ 0 then ⟨acc, .overallExpired, 0, now⟩
      else
        if e.arrival - now ≤ min (idle : ℚ) (deadline - now) then
          let q := collectLoop idle cap deadline rest (max now e.arrival) (acc ++ [evMsg e])
          ⟨q.messages, q.reason, q.waits + 1, q.finishedAt⟩
        else ⟨acc, .idleExpired, 1, now + min (idle : ℚ) (deadline - now)⟩
    else ⟨acc, .capReached, 0, now⟩

/-- Line 270: `deadline = loop.time() + max(1, overall_timeout)`, where
`loop.time()` is read just after the send returns. -/
def collectorDeadline (sendTime : ℚ) (overall : Int) : ℚ :=
  sendTime + ((max 1 overall : Int) : ℚ)

/-- One successful-send collection run: the loop started at `sendTime`
with an empty accumulator against the deadline of line 270. -/
def collectRun (overall idle cap : Int) (events : List Ev) (sendTime : ℚ) :
    CollectOut :=
  collectLoop idle cap (collectorDeadline sendTime overall) events sendTime []

/-- `send_and_collect_replies` (entity already resolved, line 251): the
handler is registered (line 262), then the message is sent (line 266).  A
send exception propagates right there — the `try/finally` that removes
the handler only begins at line 272, so no deregistration happens on that
path.  When the send returns, the loop runs inside the `try` and the
`finally` removes the handler exactly once before the messages are
returned. -/
def send_and_collect_replies (sendErr : Option String) (overall idle cap : Int)
    (events : List Ev) (sendTime : ℚ) :
    Except String (List Msg) × List CAction :=
  match sendErr with
  | some e => (.error e, [CAction.register, CAction.send])
  | none =>
    let out := collectRun overall idle cap events sendTime
    (.ok out.messages,
     [CAction.register, CAction.send] ++ List.replicate out.waits CAction.waitIter
       ++ [CAction.deregister])

/-! ### Endpoint response shaping -/

/-- `msgs[-1]["text"] if msgs else None` (lines 346 and 379). -/
def pyLastText (msgs : List Msg) : Option String :=
  if msgs.isEmpty then none else some ((msgs.getLastD ⟨"", none⟩).text)

/-- The JSON body returned by `/bot/send` on a successful collection. -/
structure BotSendResponse where
  sent : Bool
  messages : List Msg
  reply : Option String
deriving DecidableEq

/-- The JSON body returned by `/search_phone_via_bot` on a successful
collection. -/
structure SearchResponse where
  ok : Bool
  query : String
  messages : List Msg
  reply : Option String
deriving DecidableEq

/-- `/bot/send` after a successful send: collect, then set
`reply = msgs[-1]["text"] if msgs else None` (lines 344-347). -/
def bot_send (overall idle cap : Int) (events : List Ev) (sendTime : ℚ) :
    BotSendResponse :=
  let msgs := ((send_and_collect_replies none overall idle cap events sendTime).1.toOption).getD []
  ⟨true, msgs, pyLastText msgs⟩

/-- `/search_phone_via_bot` after a successful send: collect, then set
`reply` the same way (lines 377-381). -/
def search_phone_via_bot (query : String) (overall idle cap : Int)
    (events : List Ev) (sendTime : ℚ) : SearchResponse :=
  let msgs := ((send_and_collect_replies none overall idle cap events sendTime).1.toOption).getD []
  ⟨true, query, msgs, pyLastText msgs⟩

/-! ### Theorems about the reply collector -/

/-- Claim C7: in every execution of the reply collector, the event
subscription scoped to the resolved peer is registered strictly before the
outbound message is sent: every trace starts with the registration
followed by the send, and each of the two actions occurs exactly once. -/
theorem subscription_registered_before_send
    (sendErr : Option String) (overall idle cap : Int) (events : List Ev)
    (sendTime : ℚ) :
    ((send_and_collect_replies sendErr overall idle cap events sendTime).2).take 2 =
      [CAction.register, CAction.send] ∧
    ((send_and_collect_replies sendErr overall idle cap events sendTime).2).count
      CAction.register = 1 ∧
    ((send_and_collect_replies sendErr overall idle cap events sendTime).2).count
      CAction.send = 1 := by
  cases sendErr <;>
    simp [send_and_collect_replies, List.count_cons, List.count_replicate]

/-- Claim C8: with `maxMessages = 0` the collector registers, sends,
performs zero queue waits whatever the timeout parameters and the event
schedule are, immediately deregisters, and returns an empty sequence. -/
theorem cap_zero_sends_never_waits (overall idle : Int) (events : List Ev)
    (sendTime : ℚ) :
    send_and_collect_replies none overall idle 0 events sendTime =
      (.ok [], [CAction.register, CAction.send, CAction.deregister]) := by
  cases events <;>
    norm_num [send_and_collect_replies, collectRun, collectLoop, List.replicate]

/-- Claim C1 is a code bug: when the send itself raises (for instance a
rate-limit error from `send_message`), the exception propagates before the
`try/finally` of the collection loop is entered, so the handler registered
in step 1 is never deregistered and stays installed; on a successful send
the handler is removed exactly once. -/
theorem send_error_leaks_subscription :
    (send_and_collect_replies (some "FloodWaitError 30") 20 5 20 [] 0).2 =
      [CAction.register, CAction.send] ∧
    ((send_and_collect_replies (some "FloodWaitError 30") 20 5 20 [] 0).2).count
      CAction.deregister = 0 ∧
    ((send_and_collect_replies none 20 5 20 [] 0).2).count
      CAction.deregister = 1 := by
  norm_num [send_and_collect_replies, collectRun, collectLoop, collectorDeadline,
    List.count_cons, List.count_replicate, List.replicate]
  decide

/-- The loop never runs past the absolute deadline: every wait window is
clipped to the remaining overall budget. -/
lemma collectLoop_finishedAt_le (idle cap : Int) (deadline : ℚ) :
    ∀ (evs : List Ev) (now : ℚ) (acc : List Msg), now ≤ deadline →
      (collectLoop idle cap deadline evs now acc).finishedAt ≤ deadline := by
  intro evs
  induction evs with
  | nil =>
    intro now acc h
    simp only [collectLoop]
    split
    · split
      · exact h
      · have : min (idle : ℚ) (deadline - now) ≤ deadline - now := min_le_right _ _
        simp only
        linarith
    · exact h
  | cons e rest ih =>
    intro now acc h
    simp only [collectLoop]
    split
    · split
      · exact h
      · split
        · rename_i hov hrecv
          have h1 : e.arrival ≤ deadline := by
            have h2 : min (idle : ℚ) (deadline - now) ≤ deadline - now :=
              min_le_right _ _
            linarith
          exact ih (max now e.arrival) (acc ++ [evMsg e]) (max_le h h1)
        · have : min (idle : ℚ) (deadline - now) ≤ deadline - now := min_le_right _ _
          simp only
          linarith
    · exact h

/-- Whatever terminates the loop, the collected messages are the images of
a prefix of the event schedule, appended to the accumulator in arrival
order. -/
lemma collectLoop_messages_prefix (idle cap : Int) (deadline : ℚ) :
    ∀ (evs : List Ev) (now : ℚ) (acc : List Msg),
      ∃ k, (collectLoop idle cap deadline evs now acc).messages =
        acc ++ (evs.take k).map evMsg := by
  intro evs
  induction evs with
  | nil =>
    intro now acc
    refine ⟨0, ?_⟩
    simp only [collectLoop]
    split
    · split <;> simp
    · simp
  | cons e rest ih =>
    intro now acc
    simp only [collectLoop]
    split
    · split
      · exact ⟨0, by simp⟩
      · split
        · obtain ⟨k, hk⟩ := ih (max now e.arrival) (acc ++ [evMsg e])
          refine ⟨k + 1, ?_⟩
          simp only
          rw [hk]
          simp
        · exact ⟨0, by simp⟩
    · exact ⟨0, by simp⟩

/-- Claim C3 (amended): the absolute deadline of the collection loop is
the send time plus `max(1, overallTimeout)` seconds — equal to
send time + overallTimeout exactly when overallTimeout ≥ 1 — and the loop
stops waiting no later than that deadline. -/
theorem collector_deadline_clamped
    (sendTime : ℚ) (overall idle cap : Int) (events : List Ev) :
    collectorDeadline sendTime overall = sendTime + ((max 1 overall : Int) : ℚ) ∧
    (1 ≤ overall → collectorDeadline sendTime overall = sendTime + (overall : ℚ)) ∧
    (collectRun overall idle cap events sendTime).finishedAt ≤
      collectorDeadline sendTime overall := by
  refine ⟨rfl, ?_, ?_⟩
  · intro h
    simp [collectorDeadline, max_eq_right h]
  · apply collectLoop_finishedAt_le
    have h1 : (1 : ℚ) ≤ ((max 1 overall : Int) : ℚ) := by
      exact_mod_cast le_max_left 1 overall
    simp only [collectorDeadline]
    linarith

/-- Claim C3 as stated fails at overallTimeout = 0: the deadline computed
at line 270 is one second after the send, not zero, and with no inbound
events the collector keeps waiting until one second after the send. -/
theorem deadline_not_now_plus_overall :
    collectorDeadline 0 0 = 1 ∧
    collectorDeadline 0 0 ≠ 0 + ((0 : Int) : ℚ) ∧
    (collectRun 0 10 20 [] 0).finishedAt = 1 := by
  norm_num [collectorDeadline, collectRun, collectLoop]

/-- Claim C4 (amended): termination by idle or overall expiry (like every
termination of the loop) returns normally with the ordered sequence of
messages collected so far — always the image of a prefix of the arrival
schedule — but the value returned to the caller is that bare sequence,
with no marker of why collection stopped. -/
theorem collect_returns_messages_normally
    (overall idle cap : Int) (events : List Ev) (sendTime : ℚ) :
    (send_and_collect_replies none overall idle cap events sendTime).1 =
      .ok (collectRun overall idle cap events sendTime).messages ∧
    ∃ k, (collectRun overall idle cap events sendTime).messages =
      (events.take k).map evMsg := by
  constructor
  · rfl
  · simpa [collectRun] using
      collectLoop_messages_prefix idle cap (collectorDeadline sendTime overall)
        events sendTime []

/-- Claim C4's termination marker does not exist in the code: a run
stopped by the message cap and a run stopped by idle expiry hand the very
same value back to the caller, so the returned result cannot distinguish
the two terminations. -/
theorem no_termination_marker_in_result :
    (send_and_collect_replies none 20 5 1 [⟨1, "hi", none⟩] 0).1 =
      (send_and_collect_replies none 20 5 20 [⟨1, "hi", none⟩] 0).1 ∧
    (collectRun 20 5 1 [⟨1, "hi", none⟩] 0).reason = TermReason.capReached ∧
    (collectRun 20 5 20 [⟨1, "hi", none⟩] 0).reason = TermReason.idleExpired ∧
    TermReason.capReached ≠ TermReason.idleExpired := by
  refine ⟨?_, ?_, ?_, by decide⟩ <;>
    norm_num [send_and_collect_replies, collectRun, collectLoop,
      collectorDeadline, evMsg]

/-- Witness for `collector_deadline_clamped`: at overallTimeout = 5 the
deadline is the send time plus 5 and the loop respects it. -/
theorem collector_deadline_clamped_witness :
    collectorDeadline 0 5 = 0 + ((5 : Int) : ℚ) ∧
    (collectRun 5 3 7 [] 0).finishedAt ≤ collectorDeadline 0 5 :=
  ⟨(collector_deadline_clamped 0 5 3 7 []).2.1 (by decide),
   (collector_deadline_clamped 0 5 3 7 []).2.2⟩

/-- `msgs[-1]["text"] if msgs else None` equals the text of the last list
entry, `none` on the empty list. -/
lemma pyLastText_eq (msgs : List Msg) :
    pyLastText msgs = msgs.getLast?.map Msg.text := by
  cases msgs with
  | nil => rfl
  | cons a t =>
    have hne : (a :: t) ≠ ([] : List Msg) := by simp
    obtain ⟨m, hm⟩ := Option.isSome_iff_exists.mp (List.getLast?_isSome.mpr hne)
    simp [pyLastText, hm]

/-- Claim C10: in the responses of both send-and-collect endpoints the
single-reply field equals the text of the last message of the returned
ordered sequence, and is null exactly when no messages were collected. -/
theorem reply_field_is_last_message
    (overall idle cap : Int) (events : List Ev) (sendTime : ℚ) (query : String) :
    (bot_send overall idle cap events sendTime).reply =
      ((bot_send overall idle cap events sendTime).messages.getLast?).map Msg.text ∧
    ((bot_send overall idle cap events sendTime).reply = none ↔
      (bot_send overall idle cap events sendTime).messages = []) ∧
    (search_phone_via_bot query overall idle cap events sendTime).reply =
      ((search_phone_via_bot query overall idle cap events sendTime).messages.getLast?).map
        Msg.text ∧
    ((search_phone_via_bot query overall idle cap events sendTime).reply = none ↔
      (search_phone_via_bot query overall idle cap events sendTime).messages = []) := by
  refine ⟨?_, ?_, ?_, ?_⟩ <;>
    simp [bot_send, search_phone_via_bot, pyLastText_eq, Option.map_eq_none',
      List.getLast?_eq_none_iff]

/-! ### Theorems about the peer resolver -/

lemma ensureConnected_cache (st : RState) :
    (ensureConnected st).1.cache = st.cache := by
  unfold ensureConnected
  split <;> rfl

lemma ensureConnected_calls (st : RState) :
    (ensureConnected st).1.calls = st.calls := by
  unfold ensureConnected
  split <;> rfl

lemma ensureConnected_connected (st : RState) :
    (ensureConnected st).1.connected = true := by
  unfold ensureConnected
  split
  · assumption
  · rfl

/-- Claim C5 (amended): when the effective lookup key is already cached —
the `id:<id>` key when a nonzero override id is configured, the
normalized identifier otherwise — resolve returns the cached handle
immediately, with no transport effect of any kind and no state change. -/
theorem cache_hit_no_transport :
    (∀ (oracle : Nat → GetEntityResult) (n : Nat) (bot : String) (b : ℚ)
       (st : RState) (ent : Nat), ¬ n = 0 →
       st.cache.lookup ("id:" ++ toString n) = some ent →
       resolve_bot_entity oracle (some n) bot 3 b st = (.ok ent, st, [])) ∧
    (∀ (oracle : Nat → GetEntityResult) (bot : String) (b : ℚ)
       (st : RState) (ent : Nat),
       st.cache.lookup (normalizeKey bot) = some ent →
       resolve_bot_entity oracle none bot 3 b st = (.ok ent, st, [])) := by
  constructor
  · intro oracle n bot b st ent hn hl
    simp [resolve_bot_entity, hn, hl]
  · intro oracle bot b st ent hl
    simp only [normalizeKey] at hl
    simp [resolve_bot_entity, usernameResolve, hl]

/-- Witness for `cache_hit_no_transport`: a cached override id and a
cached normalized username are both returned with an empty effect log. -/
theorem cache_hit_no_transport_witness :
    resolve_bot_entity (fun _ => .transient "down") (some 5) "whatever" 3 (6/10)
      ⟨[("id:5", 42)], false, 0⟩ = (.ok 42, ⟨[("id:5", 42)], false, 0⟩, []) ∧
    resolve_bot_entity (fun _ => .transient "down") none "@SomeBot" 3 (6/10)
      ⟨[("somebot", 7)], false, 0⟩ = (.ok 7, ⟨[("somebot", 7)], false, 0⟩, []) :=
  ⟨cache_hit_no_transport.1 _ 5 "whatever" _ _ 42 (by decide) (by decide),
   cache_hit_no_transport.2 _ "@SomeBot" _ _ 7 (by decide)⟩

/-- Claim C5 as stated is false: with override id 5 configured and not yet
cached, the cache entry for the normalized identifier "mybot" does not
stop the resolver from issuing a transport resolution call for the id —
and the handle returned is the freshly resolved 99, not the cached 77. -/
theorem cached_username_still_calls_transport_with_override :
    resolve_bot_entity (fun _ => .ok 99) (some 5) "MyBot" 3 (6/10)
      ⟨[("mybot", 77)], true, 0⟩ =
      (.ok 99, ⟨[("id:5", 99), ("mybot", 77)], true, 1⟩,
        [REffect.getEntity (EntityArg.byId 5)]) ∧
    resolutionCalls [REffect.getEntity (EntityArg.byId 5)] = 1 := by
  constructor
  · decide
  · decide

/-- Claim C6 (amended): on the username path (no override id configured),
an uncached resolution whose first transport call fails with
NotFound/Invalid or with RateLimited aborts immediately with that
classified error: the effect log is exactly the connection-ensure (if
any) plus that single resolution call — no retry, no backoff sleep, no
reconnect — and the rate-limit error carries the mandated seconds.  (An
override-id resolution call that fails instead falls through to username
resolution; see the counterexample.) -/
theorem classified_failure_fails_fast :
    (∀ (oracle : Nat → GetEntityResult) (bot : String) (b : ℚ) (st : RState)
       (s : Nat),
       st.cache.lookup (normalizeKey bot) = none →
       oracle st.calls = .floodWait s →
       resolve_bot_entity oracle none bot 3 b st =
         (.error (.floodWait s), ⟨st.cache, true, st.calls + 1⟩,
          (ensureConnected st).2 ++
            [REffect.getEntity (EntityArg.byName (cleanOf bot))])) ∧
    (∀ (oracle : Nat → GetEntityResult) (bot : String) (b : ℚ) (st : RState),
       st.cache.lookup (normalizeKey bot) = none →
       oracle st.calls = .usernameInvalid →
       resolve_bot_entity oracle none bot 3 b st =
         (.error (.notFound bot), ⟨st.cache, true, st.calls + 1⟩,
          (ensureConnected st).2 ++
            [REffect.getEntity (EntityArg.byName (cleanOf bot))])) ∧
    (∀ (oracle : Nat → GetEntityResult) (bot : String) (b : ℚ) (st : RState),
       st.cache.lookup (normalizeKey bot) = none →
       oracle st.calls = .usernameNotOccupied →
       resolve_bot_entity oracle none bot 3 b st =
         (.error (.notFound bot), ⟨st.cache, true, st.calls + 1⟩,
          (ensureConnected st).2 ++
            [REffect.getEntity (EntityArg.byName (cleanOf bot))])) := by
  refine ⟨?_, ?_, ?_⟩ <;>
    (intro oracle bot b st
     first
       | intro s hmiss hcall
       | intro hmiss hcall
     simp only [normalizeKey] at hmiss
     by_cases hc : st.connected <;>
       simp [resolve_bot_entity, usernameResolve, hmiss, resolveLoop,
         ensureConnected, hc, hcall])

/-- Witness for `classified_failure_fails_fast`: a first-call FloodWait,
UsernameInvalid and UsernameNotOccupied each abort after one call. -/
theorem classified_failure_fails_fast_witness :
    resolve_bot_entity (fun _ => .floodWait 30) none "somebot" 3 (6/10)
      ⟨[], true, 0⟩ =
      (.error (.floodWait 30), ⟨[], true, 1⟩,
       (ensureConnected ⟨[], true, 0⟩).2 ++
         [REffect.getEntity (EntityArg.byName (cleanOf "somebot"))]) ∧
    resolve_bot_entity (fun _ => .usernameInvalid) none "somebot" 3 (6/10)
      ⟨[], true, 0⟩ =
      (.error (.notFound "somebot"), ⟨[], true, 1⟩,
       (ensureConnected ⟨[], true, 0⟩).2 ++
         [REffect.getEntity (EntityArg.byName (cleanOf "somebot"))]) ∧
    resolve_bot_entity (fun _ => .usernameNotOccupied) none "somebot" 3 (6/10)
      ⟨[], true, 0⟩ =
      (.error (.notFound "somebot"), ⟨[], true, 1⟩,
       (ensureConnected ⟨[], true, 0⟩).2 ++
         [REffect.getEntity (EntityArg.byName (cleanOf "somebot"))]) :=
  ⟨classified_failure_fails_fast.1 _ "somebot" (6/10) ⟨[], true, 0⟩ 30 rfl rfl,
   classified_failure_fails_fast.2.1 _ "somebot" (6/10) ⟨[], true, 0⟩ rfl rfl,
   classified_failure_fails_fast.2.2 _ "somebot" (6/10) ⟨[], true, 0⟩ rfl rfl⟩

/-- Claim C6 as stated is false for the override-id attempt: a RateLimited
failure of the override resolution call does not abort the resolver — it
falls through to username resolution, which here succeeds, so the run
returns a handle after two resolution calls instead of failing with the
rate-limit error after one. -/
theorem override_ratelimit_falls_through :
    resolve_bot_entity (fun n => if n = 0 then .floodWait 5 else .ok 42)
      (some 7) "mybot" 3 (6/10) ⟨[], true, 0⟩ =
      (.ok 42, ⟨[("mybot", 42)], true, 2⟩,
        [REffect.getEntity (EntityArg.byId 7),
         REffect.getEntity (EntityArg.byName "mybot")]) ∧
    resolutionCalls
      [REffect.getEntity (EntityArg.byId 7),
       REffect.getEntity (EntityArg.byName "mybot")] = 2 := by
  constructor
  · decide
  · decide

/-- Claim C2 (amended): with no override id configured, an uncached
resolution in which every transport call fails transiently performs
exactly 3 resolution calls (never a 4th) and sleeps a backoff delay after
every one of the three failed attempts — base, 2×base and 4×base, the
last of them after the final attempt — before failing with Unavailable
carrying the last underlying cause; the cache is left unchanged. -/
theorem transient_exhaustion_three_attempts
    (oracle : Nat → GetEntityResult) (causes : Nat → String) (bot : String)
    (b : ℚ) (st : RState)
    (hall : ∀ n, oracle n = .transient (causes n))
    (hmiss : st.cache.lookup (normalizeKey bot) = none) :
    (resolve_bot_entity oracle none bot 3 b st).1 =
      .error (.unavailable (some (causes (st.calls + 1 + 1)))) ∧
    resolutionCalls (resolve_bot_entity oracle none bot 3 b st).2.2 = 3 ∧
    sleeps (resolve_bot_entity oracle none bot 3 b st).2.2 = [b, b * 2, b * 2 * 2] ∧
    (resolve_bot_entity oracle none bot 3 b st).2.1.cache = st.cache := by
  simp only [normalizeKey] at hmiss
  by_cases hc : st.connected <;>
    simp [resolve_bot_entity, usernameResolve, hmiss, resolveLoop,
      ensureConnected, hc, hall, resolutionCalls, sleeps]

/-- Witness for `transient_exhaustion_three_attempts` on an always
transiently failing transport with base backoff 6/10. -/
theorem transient_exhaustion_three_attempts_witness :
    (resolve_bot_entity (fun _ => .transient "conn reset") none "somebot" 3 (6/10)
      ⟨[], true, 0⟩).1 = .error (.unavailable (some "conn reset")) ∧
    resolutionCalls (resolve_bot_entity (fun _ => .transient "conn reset") none
      "somebot" 3 (6/10) ⟨[], true, 0⟩).2.2 = 3 ∧
    sleeps (resolve_bot_entity (fun _ => .transient "conn reset") none
      "somebot" 3 (6/10) ⟨[], true, 0⟩).2.2 = [6/10, 6/10 * 2, 6/10 * 2 * 2] ∧
    (resolve_bot_entity (fun _ => .transient "conn reset") none
      "somebot" 3 (6/10) ⟨[], true, 0⟩).2.1.cache = [] :=
  transient_exhaustion_three_attempts _ (fun _ => "conn reset") "somebot" (6/10)
    ⟨[], true, 0⟩ (fun _ => rfl) rfl

/-- Claim C2 as stated is false about the delays: the source sleeps after
every failed attempt, the third included, so an all-transient run
observes three backoff delays — base, 2×base and 4×base — not two. -/
theorem three_backoff_delays_not_two :
    sleeps (resolve_bot_entity (fun _ => .transient "net down") none "mybot" 3
      (6/10) ⟨[], true, 0⟩).2.2 = [6/10, 6/10 * 2, 6/10 * 2 * 2] ∧
    ([6/10, 6/10 * 2, 6/10 * 2 * 2] : List ℚ) ≠ [6/10, 6/10 * 2] := by
  constructor
  · norm_num [resolve_bot_entity, usernameResolve, resolveLoop, ensureConnected,
      normalizeKey, lowerStr, cleanOf, pyStrip, isPyWs, List.dropWhile, sleeps,
      List.filterMap_cons]
  · simp

/-- The retry loop either leaves the cache unchanged, or succeeds and
prepends exactly the entry for its cache key. -/
lemma resolveLoop_cache_evolution (oracle : Nat → GetEntityResult)
    (bot clean cacheKey : String) :
    ∀ (fuel : Nat) (d : ℚ) (lastE : Option String) (st : RState),
      (resolveLoop oracle bot clean cacheKey fuel d lastE st).2.1.cache = st.cache ∨
      (rOk (resolveLoop oracle bot clean cacheKey fuel d lastE st).1 = true ∧
       ∃ v, (resolveLoop oracle bot clean cacheKey fuel d lastE st).2.1.cache =
         (cacheKey, v) :: st.cache) := by
  intro fuel
  induction fuel with
  | zero => intro d lastE st; left; rfl
  | succ n ih =>
    intro d lastE st
    cases hor : oracle st.calls
    case ok ent =>
      right
      refine ⟨?_, ent, ?_⟩ <;>
        by_cases hc : st.connected <;>
          simp [resolveLoop, ensureConnected, hc, hor, rOk]
    case transient c =>
      rcases ih (d * 2) (some c) ⟨st.cache, true, st.calls + 1⟩ with h | ⟨hok, v, hv⟩
      · left
        by_cases hc : st.connected <;>
          simpa [resolveLoop, ensureConnected, hc, hor] using h
      · right
        refine ⟨?_, v, ?_⟩ <;>
          by_cases hc : st.connected <;>
            first
              | simpa [resolveLoop, ensureConnected, hc, hor, rOk] using hok
              | simpa [resolveLoop, ensureConnected, hc, hor] using hv
    all_goals
      left
      by_cases hc : st.connected <;>
        simp [resolveLoop, ensureConnected, hc, hor]

/-- Username resolution either leaves the cache unchanged, or succeeds
and prepends one entry under a key that was absent. -/
lemma usernameResolve_cache_evolution (oracle : Nat → GetEntityResult)
    (bot : String) (retries : Nat) (b : ℚ) (st : RState) :
    (usernameResolve oracle bot retries b st).2.1.cache = st.cache ∨
    (rOk (usernameResolve oracle bot retries b st).1 = true ∧
     ∃ k v, st.cache.lookup k = none ∧
       (usernameResolve oracle bot retries b st).2.1.cache = (k, v) :: st.cache) := by
  cases hl : st.cache.lookup (lowerStr (cleanOf bot)) with
  | some ent =>
    left
    simp [usernameResolve, hl]
  | none =>
    rcases resolveLoop_cache_evolution oracle bot (cleanOf bot)
        (lowerStr (cleanOf bot)) retries b none st with h | ⟨hok, v, hv⟩
    · left
      simpa [usernameResolve, hl] using h
    · right
      exact ⟨by simpa [usernameResolve, hl] using hok,
             lowerStr (cleanOf bot), v, hl,
             by simpa [usernameResolve, hl] using hv⟩

/-- Claim C9 (amended): a resolver run mutates the cache only by
prepending exactly one entry under a previously-absent key, and only on a
successful resolution; every failed resolution, and every successful one
served from the cache, leaves the cache exactly as it was. -/
theorem cache_write_discipline (oracle : Nat → GetEntityResult)
    (buid : Option Nat) (bot : String) (retries : Nat) (b : ℚ) (st : RState) :
    (resolve_bot_entity oracle buid bot retries b st).2.1.cache = st.cache ∨
    (rOk (resolve_bot_entity oracle buid bot retries b st).1 = true ∧
     ∃ k v, st.cache.lookup k = none ∧
       (resolve_bot_entity oracle buid bot retries b st).2.1.cache =
         (k, v) :: st.cache) := by
  cases buid with
  | none => exact usernameResolve_cache_evolution oracle bot retries b st
  | some uid =>
    by_cases h0 : uid = 0
    · simpa [resolve_bot_entity, h0] using
        usernameResolve_cache_evolution oracle bot retries b st
    · cases hl : st.cache.lookup ("id:" ++ toString uid) with
      | some ent => left; simp [resolve_bot_entity, h0, hl]
      | none =>
        cases hor : oracle st.calls
        case' _ ent =>
          right
          refine ⟨?_, "id:" ++ toString uid, ent, hl, ?_⟩ <;>
            by_cases hc : st.connected <;>
              simp [resolve_bot_entity, h0, hl, hor, rOk, ensureConnected, hc]
        all_goals (
          rcases usernameResolve_cache_evolution oracle bot retries b
              ⟨st.cache, true, st.calls + 1⟩ with h | ⟨hok, k, v, hk, hv⟩
          · left
            by_cases hc : st.connected <;>
              simpa [resolve_bot_entity, h0, hl, hor, ensureConnected, hc] using h
          · right
            refine ⟨?_, k, v, by simpa using hk, ?_⟩ <;>
              by_cases hc : st.connected <;>
                first
                  | simpa [resolve_bot_entity, h0, hl, hor, rOk, ensureConnected,
                      hc] using hok
                  | simpa [resolve_bot_entity, h0, hl, hor, ensureConnected,
                      hc] using hv)

/-- Claim C9 as stated is false for cache-served resolutions: a warm-cache
resolution is successful yet writes nothing at all — the cache after the
call is exactly the cache before it, not one entry bigger. -/
theorem warm_cache_success_writes_nothing :
    resolve_bot_entity (fun _ => .unknownErr "boom") none "@MyBot " 3 (6/10)
      ⟨[("mybot", 77)], true, 0⟩ =
      (.ok 77, ⟨[("mybot", 77)], true, 0⟩, []) := by
  decide

end TelethonSidecar
